import Mathlib

/-!
Verification of the Sidr procedural tree engine.

This file gives a shallow embedding of the numeric/algorithmic core of the
repository (src/utils/treeLogic.js, src/utils/treeGen.js, and the TreeScene
module) and proves the specified properties about it.

Modelling conventions:
* JavaScript numbers that only ever hold exact small decimals and integer
  counts are modelled as rationals (`ℚ`) / naturals (`ℕ`); `Math.floor`,
  `Math.ceil`, `Math.round` become `Int.floor`, `Int.ceil`,
  `fun x => Int.floor (x + 1/2)`.
* 32-bit integer operations (`| 0`, `Math.imul`, `>>>`, `^`) are modelled on
  the unsigned 32-bit bit pattern, i.e. on `ℕ` with an explicit
  `% 4294967296` after every operation.
* Three.js geometry (meshes, quaternions, colors) is irrelevant to the claims
  proved here except through counts and through how many PRNG values it
  consumes; the embedding tracks those counts and the PRNG cursor faithfully.
-/

-- ════════════════════════════════════════════════════════════════════════════
-- src/utils/treeLogic.js
-- ════════════════════════════════════════════════════════════════════════════

/-- One entry of `TREE_STAGES` (src/utils/treeLogic.js, lines 13-54).
The `emoji`/`description` fields are presentation-only strings and are not
modelled. -/
structure Stage where
  stage : String
  label : String
  minPages : ℕ
  minKhatms : ℕ
deriving DecidableEq, Repr

def seedStage : Stage := ⟨"seed", "Seed", 0, 0⟩

def sproutStage : Stage := ⟨"sprout", "Sprout", 20, 0⟩

def youngTreeStage : Stage := ⟨"youngTree", "Young Tree", 100, 0⟩

def fullBloomStage : Stage := ⟨"fullBloom", "Full Bloom", 604, 3⟩

def ancientTreeStage : Stage := ⟨"ancientTree", "Ancient Tree", 604, 10⟩

/-- `TREE_STAGES` (src/utils/treeLogic.js lines 13-54). -/
def TREE_STAGES : List Stage :=
  [seedStage, sproutStage, youngTreeStage, fullBloomStage, ancientTreeStage]

/-- A stage's thresholds are both satisfied by the inputs
(`totalPages >= stage.minPages && khatms >= stage.minKhatms`). -/
def qualifies (totalPages khatms : ℕ) (st : Stage) : Prop :=
  st.minPages ≤ totalPages ∧ st.minKhatms ≤ khatms

instance (p k : ℕ) (st : Stage) : Decidable (qualifies p k st) :=
  inferInstanceAs (Decidable (_ ∧ _))

/-- `getTreeStage` (src/utils/treeLogic.js lines 62-70): start from
`TREE_STAGES[0]` and keep the last stage whose two thresholds are met. -/
def getTreeStage (totalPages khatms : ℕ) : Stage :=
  TREE_STAGES.foldl
    (fun current stage =>
      if stage.minPages ≤ totalPages ∧ stage.minKhatms ≤ khatms then stage
      else current)
    seedStage

/-- Spec-side restatement of the classifier contract: the LAST stage of the
ordered list whose thresholds are both satisfied (defaulting to the first
stage).  Used to compare `getTreeStage` against the spec's words. -/
def lastQualifyingStage (totalPages khatms : ℕ) : Stage :=
  (TREE_STAGES.reverse.find? fun st =>
      decide (qualifies totalPages khatms st)).getD seedStage

/-- `getProgressToNextStage` (src/utils/treeLogic.js lines 78-100).
The `| none => 0` arm models the (unreachable) failed list lookup after the
`currentIndex === TREE_STAGES.length - 1` early return. -/
def getProgressToNextStage (totalPages khatms : ℕ) : ℚ :=
  let currentStage := getTreeStage totalPages khatms
  let currentIndex := TREE_STAGES.findIdx fun s => s.stage == currentStage.stage
  if currentIndex = TREE_STAGES.length - 1 then 1
  else
    match TREE_STAGES.get? (currentIndex + 1) with
    | none => 0
    | some next =>
      let prevPages : ℚ := currentStage.minPages
      let nextPages : ℚ := next.minPages
      if (khatms : ℚ) < next.minKhatms then
        let khatmsRange : ℚ := (next.minKhatms : ℚ) - currentStage.minKhatms
        min (((khatms : ℚ) - currentStage.minKhatms) / khatmsRange) 1
      else if nextPages = prevPages then 1
      else min (((totalPages : ℚ) - prevPages) / (nextPages - prevPages)) 1

-- ════════════════════════════════════════════════════════════════════════════
-- Seeded PRNG: mulberry32 (src/utils/treeGen.js lines 24-32, and the
-- identical local copy in the TreeScene module lines 12-20)
-- ════════════════════════════════════════════════════════════════════════════

/-- One generator call of mulberry32, on the unsigned 32-bit state pattern.
Returns (new state, 32-bit output numerator); the JS float result is
numerator / 2^32. -/
def mulberry32Next (s : ℕ) : ℕ × ℕ :=
  let s1 := (s + 0x6d2b79f5) % 4294967296
  let t1 := ((Nat.xor s1 (s1 >>> 15)) * (Nat.lor 1 s1)) % 4294967296
  let t2 :=
    (Nat.xor
      ((t1 + ((Nat.xor t1 (t1 >>> 7)) * (Nat.lor 61 t1)) % 4294967296)
        % 4294967296)
      t1) % 4294967296
  (s1, (Nat.xor t2 (t2 >>> 14)) % 4294967296)

/-- Initial mulberry32 state: `seed | 0`, as unsigned 32-bit pattern. -/
def mulberry32Init (seed : ℤ) : ℕ := (seed % 4294967296).toNat

/-- State of a mulberry32 generator after `n` calls. -/
def mulberry32State (seed : ℤ) : ℕ → ℕ
  | 0 => mulberry32Init seed
  | n + 1 => (mulberry32Next (mulberry32State seed n)).1

/-- The value returned by the `n`-th call (0-indexed) of a mulberry32
generator created from `seed`: a rational in [0,1). -/
def mulberry32Seq (seed : ℤ) (n : ℕ) : ℚ :=
  ((mulberry32Next (mulberry32State seed n)).2 : ℚ) / 4294967296

-- ════════════════════════════════════════════════════════════════════════════
-- src/utils/treeGen.js — computeGrowth (lines 36-97)
-- ════════════════════════════════════════════════════════════════════════════

/-- A memorization entry of the `memo` mapping (see AppContext/initialState and
computeGrowth lines 50-55).  `verseConfidence` is the new schema (a mapping
verse → confidence string; modelled as its entry list), `versesMemorized` the
legacy list of memorized verse numbers; either may be absent. -/
structure MemoEntry where
  status : String
  verseConfidence : Option (List (ℕ × String))
  versesMemorized : Option (List ℕ)
deriving DecidableEq, Repr

/-- The engagement snapshot consumed by computeGrowth (treeGen.js line 37).
`memo` is the `Object.entries` view of the memo mapping, in iteration order;
a `none` entry value models a null/undefined entry (the `!entry` guard). -/
structure Snapshot where
  totalPages : ℕ
  totalMinutes : ℕ
  dayStreak : ℕ
  khatms : ℕ
  memo : List (ℕ × Option MemoEntry)
deriving DecidableEq, Repr

/-- A FruitDescriptor pushed by computeGrowth (treeGen.js lines 56-60). -/
structure Fruit where
  surahId : ℕ
  progress : ℕ
  status : String
deriving DecidableEq, Repr

/-- The GrowthParameters record returned by computeGrowth
(treeGen.js lines 63-96). -/
structure GrowthParams where
  growth : ℚ
  trunkLength : ℚ
  trunkRadius : ℚ
  levels : ℚ
  childrenPerNode : ℚ
  branchAngle : ℚ
  lengthFalloff : ℚ
  radiusFalloff : ℚ
  taper : ℚ
  gnarliness : ℚ
  twist : ℚ
  leafDensity : ℚ
  leafSize : ℚ
  vibrancy : ℚ
  hasBloom : Bool
  bloomIntensity : ℚ
  fruits : List Fruit
  seed : ℤ
deriving DecidableEq, Repr

/-- `goodCount` for one memo entry (treeGen.js lines 53-55): count of verses
whose confidence is "good" under the new schema, else the length of the
legacy memorized-verse list, else 0. -/
def goodCount (entry : MemoEntry) : ℕ :=
  match entry.verseConfidence with
  | some vc => ((vc.map Prod.snd).filter fun c => c == "good").length
  | none =>
    match entry.versesMemorized with
    | some vs => vs.length
    | none => 0

/-- The fruit list built by computeGrowth's memo loop (treeGen.js lines
49-61): one descriptor per present, non-decayed entry, in iteration order. -/
def memoFruits (memo : List (ℕ × Option MemoEntry)) : List Fruit :=
  memo.filterMap fun p =>
    match p.2 with
    | none => none
    | some entry =>
      if entry.status == "decayed" then none
      else some ⟨p.1, goodCount entry, entry.status⟩

/-- `computeGrowth` (src/utils/treeGen.js lines 36-97). -/
def computeGrowth (state : Snapshot) : GrowthParams :=
  let pageNorm : ℚ := min ((state.totalPages : ℚ) / 604) 1
  let minuteNorm : ℚ := min ((state.totalMinutes : ℚ) / 600) 1
  let streakNorm : ℚ := min ((state.dayStreak : ℚ) / 30) 1
  let khatmNorm : ℚ := min ((state.khatms : ℚ) / 10) 1
  let growth : ℚ := pageNorm * 0.6 + khatmNorm * 0.4
  { growth := growth
    trunkLength := 0.3 + growth * 2.2
    trunkRadius := 0.02 + growth * 0.28
    levels := growth * 4
    childrenPerNode := 1.5 + growth * 2.5
    branchAngle := 0.5 + growth * 0.3
    lengthFalloff := 0.55 + growth * 0.1
    radiusFalloff := 0.45 + growth * 0.1
    taper := 0.6 + growth * 0.25
    gnarliness := 0.03 + (1 - growth) * 0.04
    twist := 0.15 + growth * 0.15
    leafDensity := minuteNorm * 0.7 + pageNorm * 0.3
    leafSize := 0.06 + growth * 0.12
    vibrancy := 0.3 + streakNorm * 0.7
    hasBloom := 1 ≤ state.khatms
    bloomIntensity := khatmNorm
    fruits := memoFruits state.memo
    seed := Int.floor ((state.totalPages : ℚ) * 0.1 + (state.khatms : ℚ) * 1000) }

-- ════════════════════════════════════════════════════════════════════════════
-- src/utils/treeGen.js — buildTree (lines 299-479)
--
-- The embedding tracks the control-relevant state of the queue-based branch
-- generation loop: each queued branch's (length, radius, level), the number
-- of branch meshes built, the number of terminal tips collected, the
-- iteration counter guarded by the 2000-iteration safety cap, and the PRNG
-- cursor (how many `rand()` values have been consumed).  Direction vectors,
-- quaternions and vertex buffers influence only geometry, never control
-- flow, with one exception: the `childLocal.y < 0.1` clamp (line 411)
-- consumes one extra `rand()` value when it fires.  That trigonometric
-- condition is supplied as an abstract oracle (`clampO`), indexed by the
-- PRNG cursor at the check, and the stream of `rand()` values is an
-- arbitrary function `stream : ℕ → ℚ`; theorems quantify over both, which
-- in particular covers the real mulberry32 stream and real geometry.
-- ════════════════════════════════════════════════════════════════════════════

/-- JS `Math.round` (halves round up, also for negatives). -/
def jsRound (x : ℚ) : ℤ := Int.floor (x + 1/2)

/-- JS `x % 1` (remainder truncates toward zero, keeping x's sign). -/
def jsMod1 (x : ℚ) : ℚ := x - (if 0 ≤ x then Int.floor x else Int.ceil x : ℤ)

/-- Sections of a branch mesh: `Math.max(3, Math.ceil(length * 5))`
(treeGen.js line 153). -/
def branchSections (length : ℚ) : ℕ := max 3 (Int.ceil (length * 5)).toNat

/-- Number of `rand()` calls consumed by `buildBranchGeometry`
(treeGen.js lines 175-206): three per section for every section `s > 0`
(the `THREE.Euler` perturbation); the upward-bias correction consumes
none. -/
def branchGeometryRandCount (length : ℚ) : ℕ := 3 * branchSections length

/-- Number of `rand()` calls consumed by `addLeaves`
(treeGen.js lines 260-295), given the PRNG cursor `idx` at entry: nothing
if `leafDensity <= 0`; else 7 per leaf (scale, position ×3, rotation ×3)
for `max(1, round(leafDensity * 5))` leaves, then — only when `hasBloom` —
one draw for the bloom gate and three more for the bloom position when the
gate `rand() < bloomIntensity * 0.5` passes. -/
def addLeavesRandCount (params : GrowthParams) (stream : ℕ → ℚ) (idx : ℕ) : ℕ :=
  if params.leafDensity ≤ 0 then 0
  else
    let count := (max 1 (jsRound (params.leafDensity * 5))).toNat
    let base := 7 * count
    if params.hasBloom then
      if stream (idx + base) < params.bloomIntensity * 0.5 then base + 1 + 3
      else base + 1
    else base

/-- One queued branch record (treeGen.js lines 341-347 / 423-429), projected
to its control-relevant fields. -/
structure Branch where
  length : ℚ
  radius : ℚ
  level : ℕ
deriving DecidableEq, Repr

/-- Running state of the branch-generation loop. -/
structure LoopState where
  queue : List Branch
  cursor : ℕ
  meshes : ℕ
  tips : ℕ
  iterations : ℕ
  capHit : Bool
deriving DecidableEq, Repr

/-- The child-spawning loop (treeGen.js lines 397-430): spawns `n` children,
each consuming the pitch draw, the oracle-gated clamp draw (line 412), the
length and radius jitter draws and the spawn-point draw, producing children
with `length * lengthFalloff * (0.85 + rand() * 0.3)` and
`radius * radiusFalloff * (0.85 + rand() * 0.3)` at `level + 1`. -/
def spawnChildren (params : GrowthParams) (stream : ℕ → ℚ) (clampO : ℕ → Bool)
    (parent : Branch) : ℕ → ℕ → List Branch × ℕ
  | 0, idx => ([], idx)
  | n + 1, idx =>
    let idxAfterPitch := idx + 1
    let idxAfterClamp := if clampO idxAfterPitch then idxAfterPitch + 1 else idxAfterPitch
    let uLen := stream idxAfterClamp
    let uRad := stream (idxAfterClamp + 1)
    let child : Branch :=
      { length := parent.length * params.lengthFalloff * (0.85 + uLen * 0.3)
        radius := parent.radius * params.radiusFalloff * (0.85 + uRad * 0.3)
        level := parent.level + 1 }
    let rest := spawnChildren params stream clampO parent n (idxAfterClamp + 3)
    (child :: rest.1, rest.2)

/-- One execution of the body of the `while (queue.length > 0)` loop
(treeGen.js lines 355-435) on the popped `branch`, with `rest` the remaining
queue: returns the state the next loop entry sees. -/
def stepBranch (params : GrowthParams) (stream : ℕ → ℚ) (clampO : ℕ → Bool)
    (branch : Branch) (rest : List Branch) (st : LoopState) : LoopState :=
  let st0 : LoopState := { st with queue := rest, iterations := st.iterations + 1 }
  if branch.length < 0.03 ∨ branch.radius < 0.003 then st0
  else
    let afterGeo := st0.cursor + branchGeometryRandCount branch.length
    let st1 : LoopState := { st0 with cursor := afterGeo, meshes := st0.meshes + 1 }
    let maxLevel : ℤ := Int.floor params.levels
    let fractionalLevel : ℚ := params.levels - maxLevel
    let isTerminal : Bool := maxLevel ≤ (branch.level : ℤ)
    let isPartialLevel : Bool := (branch.level : ℤ) = maxLevel ∧ 0 < fractionalLevel
    if isTerminal ∧ ¬isPartialLevel then
      let consumed := addLeavesRandCount params stream st1.cursor
      { st1 with cursor := st1.cursor + consumed, tips := st1.tips + 1 }
    else
      let ccIdx := st1.cursor
      let childCount : ℤ :=
        if isPartialLevel then
          let base := Int.floor (params.childrenPerNode * fractionalLevel)
          let bumped :=
            if stream ccIdx < jsMod1 (params.childrenPerNode * fractionalLevel) then
              base + 1
            else base
          max 0 bumped
        else jsRound params.childrenPerNode
      let afterCc := if isPartialLevel then ccIdx + 1 else ccIdx
      if childCount = 0 then
        let consumed := addLeavesRandCount params stream afterCc
        { st1 with cursor := afterCc + consumed, tips := st1.tips + 1 }
      else
        let afterRadial := afterCc + 1
        let spawned := spawnChildren params stream clampO branch childCount.toNat afterRadial
        let afterLeaves :=
          if maxLevel - 1 ≤ (branch.level : ℤ) then
            spawned.2 + addLeavesRandCount params stream spawned.2
          else spawned.2
        { st1 with queue := rest ++ spawned.1, cursor := afterLeaves }

/-- The `while (queue.length > 0)` loop (treeGen.js lines 353-436),
fuel-bounded by the safety counter: `fuel` is the number of iterations the
`++safetyIter > 2000` guard still allows, so the initial call uses fuel 2000
and reaching fuel 0 with a non-empty queue is exactly the `break` that logs
the safety warning (`capHit`) and returns the partially built group. -/
def buildTreeLoop (params : GrowthParams) (stream : ℕ → ℚ) (clampO : ℕ → Bool) :
    ℕ → LoopState → LoopState
  | _, st@{ queue := [], .. } => st
  | 0, st => { st with capHit := true }
  | fuel + 1, st@{ queue := branch :: rest, .. } =>
    buildTreeLoop params stream clampO fuel
      (stepBranch params stream clampO branch rest st)

/-- Result of a modelled `buildTree` run. -/
structure TreeResult where
  seedState : Bool
  meshes : ℕ
  tips : ℕ
  iterations : ℕ
  capHit : Bool
  cursor : ℕ
deriving DecidableEq, Repr

/-- `buildTree` (src/utils/treeGen.js lines 299-436), at the control level:
parameters come from the override or from `computeGrowth`; the PRNG is
mulberry32 seeded with `params.seed || 42` (so a zero seed falls back to 42);
if `growth < 0.01` only the seed marker is emitted; otherwise the trunk lean
consumes two draws and the queue loop runs with the 2000-iteration cap.
The fruit-placement phase (lines 439-476) is modelled separately by
`placeFruits` since it takes the collected tip positions as input. -/
def buildTreeModel (state : Snapshot) (overrideGrowth : Option GrowthParams)
    (clampO : ℕ → Bool) : TreeResult :=
  let params := overrideGrowth.getD (computeGrowth state)
  let effSeed : ℤ := if params.seed = 0 then 42 else params.seed
  let stream := mulberry32Seq effSeed
  if params.growth < 0.01 then
    { seedState := true, meshes := 0, tips := 0, iterations := 0
      capHit := false, cursor := 0 }
  else
    let trunk : Branch := ⟨params.trunkLength, params.trunkRadius, 0⟩
    let final := buildTreeLoop params stream clampO 2000
      { queue := [trunk], cursor := 2, meshes := 0, tips := 0
        iterations := 0, capHit := false }
    { seedState := false, meshes := final.meshes, tips := final.tips
      iterations := final.iterations, capHit := final.capHit
      cursor := final.cursor }

-- ════════════════════════════════════════════════════════════════════════════
-- src/utils/treeGen.js — fruit/blossom placement (lines 439-476)
-- ════════════════════════════════════════════════════════════════════════════

/-- A terminal tip position (x, y, z). -/
structure Tip where
  x : ℚ
  y : ℚ
  z : ℚ
deriving DecidableEq, Repr

/-- One placed decoration: `golden = true` is the full golden fruit mesh
(status "complete"), `golden = false` the pink blossom mesh. -/
structure Deco where
  golden : Bool
  scale : ℚ
  x : ℚ
  y : ℚ
  z : ℚ
deriving DecidableEq, Repr

/-- The body of the fruit loop (treeGen.js lines 444-475) for one descriptor,
given the `fruitRand` state `s`: one draw picks the tip index
`Math.floor(fruitRand() * terminalTips.length)`, three draws scatter the
decoration around that tip.  Returns `none` when the tip lookup is out of
range (which would be the JS crash `tipPos.x` on `undefined`). -/
def placeOneFruit (growth : ℚ) (tips : List Tip) (fruit : Fruit) (s : ℕ) :
    Option (Deco × ℕ) :=
  let d0 := mulberry32Next s
  let u0 : ℚ := (d0.2 : ℚ) / 4294967296
  let tipIdx := (Int.floor (u0 * tips.length)).toNat
  match tips.get? tipIdx with
  | none => none
  | some tipPos =>
    let d1 := mulberry32Next d0.1
    let d2 := mulberry32Next d1.1
    let d3 := mulberry32Next d2.1
    let u1 : ℚ := (d1.2 : ℚ) / 4294967296
    let u2 : ℚ := (d2.2 : ℚ) / 4294967296
    let u3 : ℚ := (d3.2 : ℚ) / 4294967296
    if fruit.status == "complete" then
      some
        ({ golden := true
           scale := 0.07 + growth * 0.05
           x := tipPos.x + (u1 - 0.5) * 0.15
           y := tipPos.y + u2 * 0.1
           z := tipPos.z + (u3 - 0.5) * 0.15 }, d3.1)
    else
      let progressScale : ℚ := min 1 ((fruit.progress : ℚ) / 20)
      some
        ({ golden := false
           scale := (0.03 + progressScale * 0.06) * (0.5 + growth)
           x := tipPos.x + (u1 - 0.5) * 0.1
           y := tipPos.y + u2 * 0.08
           z := tipPos.z + (u3 - 0.5) * 0.1 }, d3.1)

/-- The `for (fi …)` loop over all fruit descriptors, threading the
`fruitRand` state. -/
def placeFruitsGo (growth : ℚ) (tips : List Tip) :
    List Fruit → ℕ → Option (List Deco)
  | [], _ => some []
  | fruit :: rest, s =>
    match placeOneFruit growth tips fruit s with
    | none => none
    | some (deco, s2) =>
      match placeFruitsGo growth tips rest s2 with
      | none => none
      | some decos => some (deco :: decos)

/-- The fruit-placement phase of `buildTree` (treeGen.js lines 439-476):
runs only when both the fruit list and the terminal-tip list are non-empty,
with a fresh `mulberry32(42)` for stable placement. -/
def placeFruits (growth : ℚ) (fruits : List Fruit) (tips : List Tip) :
    Option (List Deco) :=
  if 0 < fruits.length ∧ 0 < tips.length then
    placeFruitsGo growth tips fruits (mulberry32Init 42)
  else some []

-- ════════════════════════════════════════════════════════════════════════════
-- TreeScene module — time-of-day model (part_000, lines 25-76)
-- ════════════════════════════════════════════════════════════════════════════

/-- One `TIME_KEYS` keyframe (part_000, lines 25-37): hour, four colors as
0xRRGGBB integers, ambient intensity, sun color, sun intensity. -/
structure TimeKey where
  h : ℚ
  sky : ℕ
  horizon : ℕ
  skyHemi : ℕ
  groundHemi : ℕ
  ambI : ℚ
  sunCol : ℕ
  sunI : ℚ
deriving DecidableEq, Repr

/-- The `TIME_KEYS` table (part_000, lines 25-37). -/
def TIME_KEYS : List TimeKey :=
  [ ⟨0,  0x060c1a, 0x12182e, 0x1a2245, 0x0a0e18, 0.12, 0xc8d8ff, 0.08⟩,
    ⟨5,  0x1c0e32, 0x3a1545, 0x251540, 0x120a20, 0.18, 0xffbb88, 0.14⟩,
    ⟨6,  0x3d1f60, 0xe07850, 0x4a2850, 0x2a1010, 0.28, 0xffcc80, 0.52⟩,
    ⟨7,  0x4e8ecc, 0xe8cc90, 0xc0b890, 0x3d2b1f, 0.45, 0xfff0c0, 0.82⟩,
    ⟨10, 0x2278cc, 0x98daf5, 0xa8ccee, 0x3d2b1f, 0.55, 0xfffff5, 0.95⟩,
    ⟨13, 0x1870c8, 0x88d0f0, 0xa0c8e8, 0x3d2b1f, 0.60, 0xffffff, 1.00⟩,
    ⟨17, 0x2a68b8, 0xa0c8e8, 0xa8c8e0, 0x3d2b1f, 0.55, 0xfff8d0, 0.85⟩,
    ⟨19, 0x2a1858, 0xe07040, 0x4a2840, 0x1a0808, 0.30, 0xff9940, 0.50⟩,
    ⟨20, 0x100c28, 0x1c1438, 0x181630, 0x080610, 0.16, 0xffd880, 0.16⟩,
    ⟨24, 0x060c1a, 0x12182e, 0x1a2245, 0x0a0e18, 0.12, 0xc8d8ff, 0.08⟩ ]

/-- The bracketing-keyframe search of `getTimeOfDayConfig` (part_000, lines
43-48): scan consecutive pairs; the first pair with
`hour >= keys[i].h && hour < keys[i+1].h` wins, defaulting to the first
pair. -/
def bracketKeys (hour : ℚ) : List TimeKey → TimeKey × TimeKey → TimeKey × TimeKey
  | a :: b :: rest, dflt =>
    if a.h ≤ hour ∧ hour < b.h then (a, b)
    else bracketKeys hour (b :: rest) dflt
  | _, dflt => dflt

/-- The scalar outputs of `getTimeOfDayConfig` (part_000, lines 39-76) for a
given hour value (the caller passes `overrideHour % 24` or the wall clock).
Colors and the trigonometric celestial-body arc are geometric outputs and are
not part of any claim; the keyframe interpolation of the two intensity
scalars and the day/night classification are modelled. -/
structure SkyConfig where
  ambientIntensity : ℚ
  sunIntensity : ℚ
  isNight : Bool
deriving DecidableEq, Repr

/-- `getTimeOfDayConfig` (part_000 lines 39-76), scalar part:
`isNight = hour < 6 || hour >= 19.5`, intensities linearly interpolated
between the bracketing keyframes. -/
def getTimeOfDayConfig (hour : ℚ) : SkyConfig :=
  let ab := bracketKeys hour TIME_KEYS
    (TIME_KEYS.headD ⟨0, 0, 0, 0, 0, 0, 0, 0⟩,
     (TIME_KEYS.drop 1).headD ⟨0, 0, 0, 0, 0, 0, 0, 0⟩)
  let a := ab.1
  let b := ab.2
  let t : ℚ := if b.h = a.h then 0 else (hour - a.h) / (b.h - a.h)
  { ambientIntensity := a.ambI + (b.ambI - a.ambI) * t
    sunIntensity := a.sunI + (b.sunI - a.sunI) * t
    isNight := hour < 6 ∨ 19.5 ≤ hour }

-- ════════════════════════════════════════════════════════════════════════════
-- TreeScene module — khatm badge markers (part_000, lines 270-299)
-- ════════════════════════════════════════════════════════════════════════════

/-- One badge stone (part_000, lines 275-295).  `angleTurns` is the azimuth
as a fraction of a full turn (the source's `angle = (i / count) * 2π`);
`color` is the material's RGB triple; `lean` is the `rotation.z`
weathered-lean value `(rand() - 0.5) * 0.12`. -/
structure BadgeMarker where
  angleTurns : ℚ
  radius : ℚ
  isSpecial : Bool
  height : ℚ
  color : ℚ × ℚ × ℚ
  emissive : ℚ × ℚ × ℚ
  lean : ℚ
deriving DecidableEq, Repr

/-- `buildBadgeMarkers` (part_000, lines 270-299): `min(khatms, 12)` stones
evenly spaced around a circle at alternating radii 1.9 / 2.2, gold-accented
material on every index divisible by 5, stone material otherwise, heights
cycling through 3 values, lean drawn from `mulberry32(0xba06e5)` (one draw
per stone, in order). -/
def buildBadgeMarkers (khatms : ℕ) : List BadgeMarker :=
  let count := min khatms 12
  (List.range count).map fun (i : ℕ) =>
    { angleTurns := (i : ℚ) / count
      radius := 1.9 + ((i % 2 : ℕ) : ℚ) * 0.3
      isSpecial := i % 5 = 0
      height := 0.15 + ((i % 3 : ℕ) : ℚ) * 0.07
      color := if i % 5 = 0 then (0.55, 0.45, 0.14) else (0.40, 0.36, 0.30)
      emissive := if i % 5 = 0 then (0.14, 0.09, 0.01) else (0.02, 0.02, 0.01)
      lean := (mulberry32Seq 0xba06e5 i - 0.5) * 0.12 }

/-- `nextStageOf` names the "next" stage used by `getProgressToNextStage`
(treeLogic.js lines 82-86): none at the terminal index, else the list entry
after the current stage's index. -/
def nextStageOf (totalPages khatms : ℕ) : Option Stage :=
  let currentStage := getTreeStage totalPages khatms
  let currentIndex := TREE_STAGES.findIdx fun s => s.stage == currentStage.stage
  if currentIndex = TREE_STAGES.length - 1 then none
  else TREE_STAGES.get? (currentIndex + 1)

-- ════════════════════════════════════════════════════════════════════════════
-- Theorems
-- ════════════════════════════════════════════════════════════════════════════

/-- Closed-form region analysis of the classifier. -/
lemma getTreeStage_spec (p k : ℕ) :
    getTreeStage p k =
      if 604 ≤ p ∧ 10 ≤ k then ancientTreeStage
      else if 604 ≤ p ∧ 3 ≤ k then fullBloomStage
      else if 100 ≤ p then youngTreeStage
      else if 20 ≤ p then sproutStage
      else seedStage := by
  by_cases h604 : 604 ≤ p <;> by_cases h100 : 100 ≤ p <;> by_cases h20 : 20 ≤ p <;>
    by_cases h10 : 10 ≤ k <;> by_cases h3 : 3 ≤ k <;>
      simp [getTreeStage, TREE_STAGES, seedStage, sproutStage, youngTreeStage,
        fullBloomStage, ancientTreeStage, h604, h100, h20, h10, h3]

/-- The same region analysis for the spec-side "last qualifying" function. -/
lemma lastQualifyingStage_spec (p k : ℕ) :
    lastQualifyingStage p k =
      if 604 ≤ p ∧ 10 ≤ k then ancientTreeStage
      else if 604 ≤ p ∧ 3 ≤ k then fullBloomStage
      else if 100 ≤ p then youngTreeStage
      else if 20 ≤ p then sproutStage
      else seedStage := by
  by_cases h604 : 604 ≤ p <;> by_cases h100 : 100 ≤ p <;> by_cases h20 : 20 ≤ p <;>
    by_cases h10 : 10 ≤ k <;> by_cases h3 : 3 ≤ k <;>
      simp [lastQualifyingStage, qualifies, TREE_STAGES, seedStage, sproutStage,
        youngTreeStage, fullBloomStage, ancientTreeStage, h604, h100, h20, h10,
        h3, List.find?]

/-- C1: for every pair of inputs, `getTreeStage` returns the last stage of
the ordered `TREE_STAGES` list whose `minPages`/`minKhatms` thresholds are
both satisfied (so its thresholds hold and no later qualifying stage is
skipped); in particular (0,0) is Seed, (20,0) Sprout, (604,3) Full Bloom
and (604,10) Ancient Tree. -/
theorem getTreeStage_returns_last_qualifying_stage :
    (∀ p k : ℕ, qualifies p k (getTreeStage p k) ∧
      getTreeStage p k = lastQualifyingStage p k) ∧
    getTreeStage 0 0 = seedStage ∧
    getTreeStage 20 0 = sproutStage ∧
    getTreeStage 604 3 = fullBloomStage ∧
    getTreeStage 604 10 = ancientTreeStage := by
  refine ⟨fun p k => ⟨?_, ?_⟩, by decide, by decide, by decide, by decide⟩
  · rw [getTreeStage_spec]
    split_ifs with h1 h2 h3 h4 <;>
      simp [qualifies, seedStage, sproutStage, youngTreeStage, fullBloomStage,
        ancientTreeStage] <;>
      omega
  · rw [getTreeStage_spec, lastQualifyingStage_spec]

/-- Closed-form region analysis of `getProgressToNextStage`. -/
lemma getProgressToNextStage_spec (p k : ℕ) :
    getProgressToNextStage p k =
      if 604 ≤ p ∧ 10 ≤ k then 1
      else if 604 ≤ p ∧ 3 ≤ k then min (((k : ℚ) - 3) / 7) 1
      else if 100 ≤ p then
        (if k < 3 then min ((k : ℚ) / 3) 1 else min (((p : ℚ) - 100) / 504) 1)
      else if 20 ≤ p then min (((p : ℚ) - 20) / 80) 1
      else min ((p : ℚ) / 20) 1 := by
  unfold getProgressToNextStage
  rw [getTreeStage_spec]
  by_cases h604 : 604 ≤ p <;> by_cases h100 : 100 ≤ p <;> by_cases h20 : 20 ≤ p <;>
    by_cases h10 : 10 ≤ k <;> by_cases h3 : 3 ≤ k <;>
      simp [h604, h100, h20, h10, h3, TREE_STAGES, seedStage, sproutStage,
        youngTreeStage, fullBloomStage, ancientTreeStage, List.findIdx,
        List.findIdx.go]
  all_goals try omega
  all_goals split_ifs <;> try omega
  all_goals try norm_num
  all_goals exact (((Nat.cast_nonneg _).not_lt (by assumption)).elim)

/-- Region analysis of the "next" stage. -/
lemma nextStageOf_spec (p k : ℕ) :
    nextStageOf p k =
      if 604 ≤ p ∧ 10 ≤ k then none
      else if 604 ≤ p ∧ 3 ≤ k then some ancientTreeStage
      else if 100 ≤ p then some fullBloomStage
      else if 20 ≤ p then some youngTreeStage
      else some sproutStage := by
  unfold nextStageOf
  rw [getTreeStage_spec]
  by_cases h604 : 604 ≤ p <;> by_cases h100 : 100 ≤ p <;> by_cases h20 : 20 ≤ p <;>
    by_cases h10 : 10 ≤ k <;> by_cases h3 : 3 ≤ k <;>
      simp [h604, h100, h20, h10, h3, TREE_STAGES, seedStage, sproutStage,
        youngTreeStage, fullBloomStage, ancientTreeStage, List.findIdx,
        List.findIdx.go]

/-- The clamped fractions of the progress computation lie in [0,1]. -/
lemma min_div_one_mem_unit (a b : ℚ) (ha : 0 ≤ a) (hb : 0 ≤ b) :
    0 ≤ min (a / b) 1 ∧ min (a / b) 1 ≤ 1 :=
  ⟨le_min (div_nonneg ha hb) zero_le_one, min_le_right _ _⟩

/-- C2: for all non-negative integer inputs, `getProgressToNextStage` is in
[0,1]; at (or beyond) the terminal Ancient Tree stage it is exactly 1; and
when a next stage exists, the result is the khatm-based fraction when the
next khatm threshold is unmet, 1 when the page thresholds coincide, and the
page-based fraction otherwise, each capped at 1. -/
theorem getProgressToNextStage_bounds :
    ∀ p k : ℕ,
      0 ≤ getProgressToNextStage p k ∧ getProgressToNextStage p k ≤ 1 ∧
      (604 ≤ p → 10 ≤ k → getProgressToNextStage p k = 1) ∧
      ∀ next, nextStageOf p k = some next →
        ((k : ℚ) < next.minKhatms →
          getProgressToNextStage p k =
            min (((k : ℚ) - (getTreeStage p k).minKhatms) /
              ((next.minKhatms : ℚ) - (getTreeStage p k).minKhatms)) 1) ∧
        (¬(k : ℚ) < next.minKhatms →
          next.minPages = (getTreeStage p k).minPages →
          getProgressToNextStage p k = 1) ∧
        (¬(k : ℚ) < next.minKhatms →
          next.minPages ≠ (getTreeStage p k).minPages →
          getProgressToNextStage p k =
            min (((p : ℚ) - (getTreeStage p k).minPages) /
              ((next.minPages : ℚ) - (getTreeStage p k).minPages)) 1) := by
  intro p k
  rw [getProgressToNextStage_spec, getTreeStage_spec, nextStageOf_spec]
  by_cases hA : 604 ≤ p ∧ 10 ≤ k
  · -- Ancient Tree region: progress is the constant 1.
    rw [if_pos hA, if_pos hA, if_pos hA]
    exact ⟨zero_le_one, le_refl 1, fun _ _ => rfl, by simp⟩
  · rw [if_neg hA, if_neg hA, if_neg hA]
    by_cases hB : 604 ≤ p ∧ 3 ≤ k
    · -- Full Bloom region (604 ≤ p, 3 ≤ k, k < 10): khatm fraction.
      rw [if_pos hB, if_pos hB, if_pos hB]
      have hkq : (3 : ℚ) ≤ (k : ℚ) := by exact_mod_cast hB.2
      refine ⟨(min_div_one_mem_unit _ _ (by linarith) (by norm_num)).1,
        (min_div_one_mem_unit _ _ (by linarith) (by norm_num)).2,
        fun hp hk => absurd ⟨hp, hk⟩ hA, ?_⟩
      rintro next hnext
      cases hnext
      refine ⟨fun _ => ?_, fun hnk _ => ?_, fun _ hne => ?_⟩
      · simp [ancientTreeStage, fullBloomStage]
        norm_num
      · exfalso
        have : (k : ℚ) < 10 := by
          exact_mod_cast (by omega : k < 10)
        exact hnk (by simpa [ancientTreeStage] using this)
      · exfalso
        exact hne (by simp [ancientTreeStage, fullBloomStage])
    · rw [if_neg hB, if_neg hB, if_neg hB]
      by_cases hC : 100 ≤ p
      · -- Young Tree region: khatm fraction if k < 3, else page fraction.
        rw [if_pos hC, if_pos hC, if_pos hC]
        by_cases hk3 : k < 3
        · rw [if_pos hk3]
          refine ⟨(min_div_one_mem_unit _ _ (Nat.cast_nonneg k) (by norm_num)).1,
            (min_div_one_mem_unit _ _ (Nat.cast_nonneg k) (by norm_num)).2,
            fun hp hk => absurd ⟨hp, hk⟩ hA, ?_⟩
          rintro next hnext
          cases hnext
          refine ⟨fun _ => ?_, fun hnk _ => ?_, fun hnk _ => ?_⟩
          · simp [fullBloomStage, youngTreeStage]
          all_goals
            exact absurd (by exact_mod_cast hk3 :
              (k : ℚ) < ((3 : ℕ) : ℚ)) (by simpa [fullBloomStage] using hnk)
        · rw [if_neg hk3]
          have hpq : (100 : ℚ) ≤ (p : ℚ) := by exact_mod_cast hC
          refine ⟨(min_div_one_mem_unit _ _ (by linarith) (by norm_num)).1,
            (min_div_one_mem_unit _ _ (by linarith) (by norm_num)).2,
            fun hp hk => absurd ⟨hp, hk⟩ hA, ?_⟩
          rintro next hnext
          cases hnext
          refine ⟨fun hnk => ?_, fun _ habs => ?_, fun _ _ => ?_⟩
          · exfalso
            have : (3 : ℚ) ≤ (k : ℚ) := by exact_mod_cast (by omega : 3 ≤ k)
            simp [fullBloomStage] at hnk
            linarith
          · exfalso
            simp [fullBloomStage, youngTreeStage] at habs
          · norm_num [fullBloomStage, youngTreeStage]
      · rw [if_neg hC, if_neg hC, if_neg hC]
        by_cases hD : 20 ≤ p
        · -- Sprout region: page fraction toward Young Tree.
          rw [if_pos hD, if_pos hD, if_pos hD]
          have hpq : (20 : ℚ) ≤ (p : ℚ) := by exact_mod_cast hD
          refine ⟨(min_div_one_mem_unit _ _ (by linarith) (by norm_num)).1,
            (min_div_one_mem_unit _ _ (by linarith) (by norm_num)).2,
            fun hp hk => absurd ⟨hp, hk⟩ hA, ?_⟩
          rintro next hnext
          cases hnext
          refine ⟨fun hnk => ?_, fun _ habs => ?_, fun _ _ => ?_⟩
          · exfalso
            exact (Nat.cast_nonneg k).not_lt (by simpa [youngTreeStage] using hnk)
          · exfalso
            simp [youngTreeStage, sproutStage] at habs
          · simp [youngTreeStage, sproutStage]
            norm_num
        · -- Seed region: page fraction toward Sprout.
          rw [if_neg hD, if_neg hD, if_neg hD]
          refine ⟨(min_div_one_mem_unit _ _ (Nat.cast_nonneg p) (by norm_num)).1,
            (min_div_one_mem_unit _ _ (Nat.cast_nonneg p) (by norm_num)).2,
            fun hp hk => absurd ⟨hp, hk⟩ hA, ?_⟩
          rintro next hnext
          cases hnext
          refine ⟨fun hnk => ?_, fun _ habs => ?_, fun _ _ => ?_⟩
          · exfalso
            exact (Nat.cast_nonneg k).not_lt (by simpa [sproutStage] using hnk)
          · exfalso
            simp [sproutStage, seedStage] at habs
          · simp [sproutStage, seedStage]

/-- Witness for C2 at concrete inputs: bounds at (10,0), terminal value at
(700,12), and the khatm-based branch at (604,5). -/
theorem getProgressToNextStage_bounds_witness :
    (0 ≤ getProgressToNextStage 10 0 ∧ getProgressToNextStage 10 0 ≤ 1) ∧
    getProgressToNextStage 700 12 = 1 ∧
    getProgressToNextStage 604 5 =
      min ((((5 : ℕ) : ℚ) - (getTreeStage 604 5).minKhatms) /
        ((ancientTreeStage.minKhatms : ℚ) - (getTreeStage 604 5).minKhatms)) 1 :=
  ⟨⟨(getProgressToNextStage_bounds 10 0).1,
    (getProgressToNextStage_bounds 10 0).2.1⟩,
   (getProgressToNextStage_bounds 700 12).2.2.1 (by norm_num) (by norm_num),
   ((getProgressToNextStage_bounds 604 5).2.2.2 ancientTreeStage (by decide)).1
     (by norm_num [ancientTreeStage])⟩

/-- C3: `computeGrowth` is deterministic — two calls on equal snapshots
return GrowthParameters records with every field equal, including the
fruits list and the integer seed.  The embedding of `computeGrowth` is a
pure function of its snapshot argument (the source reads no ambient state),
so determinism is equality of outputs on equal inputs. -/
theorem computeGrowth_deterministic :
    ∀ s₁ s₂ : Snapshot, s₁ = s₂ →
      (computeGrowth s₁).growth = (computeGrowth s₂).growth ∧
      (computeGrowth s₁).trunkLength = (computeGrowth s₂).trunkLength ∧
      (computeGrowth s₁).trunkRadius = (computeGrowth s₂).trunkRadius ∧
      (computeGrowth s₁).levels = (computeGrowth s₂).levels ∧
      (computeGrowth s₁).childrenPerNode = (computeGrowth s₂).childrenPerNode ∧
      (computeGrowth s₁).branchAngle = (computeGrowth s₂).branchAngle ∧
      (computeGrowth s₁).lengthFalloff = (computeGrowth s₂).lengthFalloff ∧
      (computeGrowth s₁).radiusFalloff = (computeGrowth s₂).radiusFalloff ∧
      (computeGrowth s₁).taper = (computeGrowth s₂).taper ∧
      (computeGrowth s₁).gnarliness = (computeGrowth s₂).gnarliness ∧
      (computeGrowth s₁).twist = (computeGrowth s₂).twist ∧
      (computeGrowth s₁).leafDensity = (computeGrowth s₂).leafDensity ∧
      (computeGrowth s₁).leafSize = (computeGrowth s₂).leafSize ∧
      (computeGrowth s₁).vibrancy = (computeGrowth s₂).vibrancy ∧
      (computeGrowth s₁).hasBloom = (computeGrowth s₂).hasBloom ∧
      (computeGrowth s₁).bloomIntensity = (computeGrowth s₂).bloomIntensity ∧
      (computeGrowth s₁).fruits = (computeGrowth s₂).fruits ∧
      (computeGrowth s₁).seed = (computeGrowth s₂).seed ∧
      computeGrowth s₁ = computeGrowth s₂ := by
  rintro s₁ s₂ rfl
  exact ⟨rfl, rfl, rfl, rfl, rfl, rfl, rfl, rfl, rfl, rfl, rfl, rfl, rfl, rfl,
    rfl, rfl, rfl, rfl, rfl⟩

/-- Witness for C3 at a concrete snapshot with a non-trivial memo map. -/
theorem computeGrowth_deterministic_witness :
    computeGrowth
        ⟨604, 120, 5, 2,
          [(1, some ⟨"active", none, some [1, 2]⟩),
           (112, some ⟨"complete", some [(1, "good"), (2, "shaky")], none⟩)]⟩ =
      computeGrowth
        ⟨604, 120, 5, 2,
          [(1, some ⟨"active", none, some [1, 2]⟩),
           (112, some ⟨"complete", some [(1, "good"), (2, "shaky")], none⟩)]⟩ :=
  (computeGrowth_deterministic _ _ rfl).2.2.2.2.2.2.2.2.2.2.2.2.2.2.2.2.2.2

/-- C4: with khatms held fixed, increasing totalPages never decreases
`growth`, `trunkLength` or `trunkRadius`. -/
theorem computeGrowth_monotone_in_pages :
    ∀ s₁ s₂ : Snapshot, s₁.khatms = s₂.khatms →
      s₁.totalPages ≤ s₂.totalPages →
      (computeGrowth s₁).growth ≤ (computeGrowth s₂).growth ∧
      (computeGrowth s₁).trunkLength ≤ (computeGrowth s₂).trunkLength ∧
      (computeGrowth s₁).trunkRadius ≤ (computeGrowth s₂).trunkRadius := by
  intro s₁ s₂ hk hp
  have hq : ((s₁.totalPages : ℚ)) ≤ (s₂.totalPages : ℚ) := by exact_mod_cast hp
  have hg : (computeGrowth s₁).growth ≤ (computeGrowth s₂).growth := by
    simp only [computeGrowth, hk]
    gcongr
  have e1 : ∀ s : Snapshot,
      (computeGrowth s).trunkLength = 0.3 + (computeGrowth s).growth * 2.2 :=
    fun _ => rfl
  have e2 : ∀ s : Snapshot,
      (computeGrowth s).trunkRadius = 0.02 + (computeGrowth s).growth * 0.28 :=
    fun _ => rfl
  refine ⟨hg, ?_, ?_⟩
  · rw [e1, e1]
    linarith
  · rw [e2, e2]
    linarith

/-- Witness for C4: 100 pages versus 300 pages at one khatm. -/
theorem computeGrowth_monotone_in_pages_witness :
    (computeGrowth ⟨100, 0, 0, 1, []⟩).growth ≤
      (computeGrowth ⟨300, 50, 2, 1, []⟩).growth ∧
    (computeGrowth ⟨100, 0, 0, 1, []⟩).trunkLength ≤
      (computeGrowth ⟨300, 50, 2, 1, []⟩).trunkLength ∧
    (computeGrowth ⟨100, 0, 0, 1, []⟩).trunkRadius ≤
      (computeGrowth ⟨300, 50, 2, 1, []⟩).trunkRadius :=
  computeGrowth_monotone_in_pages _ _ rfl (by norm_num)

/-- Each mulberry32 output numerator is a 32-bit value. -/
lemma mulberry32Next_snd_lt (s : ℕ) : (mulberry32Next s).2 < 4294967296 := by
  simp only [mulberry32Next]
  omega

/-- C8: every value of the mulberry32 stream is a float in [0,1), and the
whole stream is a function of the integer seed alone (generators built from
equal seeds agree at every position). -/
theorem mulberry32_range_and_determinism :
    ∀ (seed : ℤ) (n : ℕ),
      0 ≤ mulberry32Seq seed n ∧ mulberry32Seq seed n < 1 ∧
      ∀ seed₂ : ℤ, seed₂ = seed → mulberry32Seq seed₂ n = mulberry32Seq seed n := by
  intro seed n
  refine ⟨div_nonneg (Nat.cast_nonneg _) (by norm_num), ?_, fun s₂ h => by rw [h]⟩
  rw [mulberry32Seq, div_lt_one (by norm_num)]
  exact_mod_cast mulberry32Next_snd_lt (mulberry32State seed n)

/-- Witness for C8: seed 42, position 3. -/
theorem mulberry32_range_witness :
    0 ≤ mulberry32Seq 42 3 ∧ mulberry32Seq 42 3 < 1 ∧
      mulberry32Seq 42 3 = mulberry32Seq 42 3 :=
  ⟨(mulberry32_range_and_determinism 42 3).1,
   (mulberry32_range_and_determinism 42 3).2.1,
   (mulberry32_range_and_determinism 42 3).2.2 42 rfl⟩

/-- C7: the scene's day/night classification holds exactly when the hour is
before 6 or at/after 19.5; in particular 5.99 is night, 6.0 is day, 19.49 is
day and 19.5 is night. -/
theorem getTimeOfDayConfig_isNight_boundary :
    (∀ h : ℚ, 0 ≤ h → h < 24 →
      ((getTimeOfDayConfig h).isNight = true ↔ (h < 6 ∨ 19.5 ≤ h))) ∧
    (getTimeOfDayConfig 5.99).isNight = true ∧
    (getTimeOfDayConfig 6).isNight = false ∧
    (getTimeOfDayConfig 19.49).isNight = false ∧
    (getTimeOfDayConfig 19.5).isNight = true := by
  refine ⟨fun h _ _ => ?_, ?_, ?_, ?_, ?_⟩
  · simp [getTimeOfDayConfig]
  all_goals norm_num [getTimeOfDayConfig]

/-- Witness for C7: hour 3 is night via the general boundary rule. -/
theorem getTimeOfDayConfig_isNight_witness :
    (getTimeOfDayConfig 3).isNight = true :=
  (getTimeOfDayConfig_isNight_boundary.1 3 (by norm_num) (by norm_num)).mpr
    (Or.inl (by norm_num))

/-- C9: `buildBadgeMarkers` places exactly `min(khatms, 12)` markers, the
`i`-th at azimuth `i/count` of a full turn, radius 1.9 for even `i` and 2.2
for odd `i`, with the gold accent material exactly on every index divisible
by 5 and the plain stone material on all others. -/
theorem buildBadgeMarkers_layout :
    ∀ khatms : ℕ,
      (buildBadgeMarkers khatms).length = min khatms 12 ∧
      ∀ i (hi : i < (buildBadgeMarkers khatms).length),
        ((buildBadgeMarkers khatms).get ⟨i, hi⟩).angleTurns =
            (i : ℚ) / (min khatms 12) ∧
        ((buildBadgeMarkers khatms).get ⟨i, hi⟩).radius =
            (if i % 2 = 0 then 1.9 else 2.2) ∧
        (((buildBadgeMarkers khatms).get ⟨i, hi⟩).isSpecial = true ↔ i % 5 = 0) ∧
        ((buildBadgeMarkers khatms).get ⟨i, hi⟩).color =
            (if i % 5 = 0 then (0.55, 0.45, 0.14) else (0.40, 0.36, 0.30)) ∧
        ((buildBadgeMarkers khatms).get ⟨i, hi⟩).emissive =
            (if i % 5 = 0 then (0.14, 0.09, 0.01) else (0.02, 0.02, 0.01)) := by
  intro khatms
  refine ⟨by simp [buildBadgeMarkers], fun i hi => ?_⟩
  have hi2 : i < min khatms 12 := by simpa [buildBadgeMarkers] using hi
  simp only [buildBadgeMarkers, List.get_eq_getElem, List.getElem_map,
    List.getElem_range]
  refine ⟨trivial, ?_, by simp, trivial, trivial⟩
  rcases Nat.mod_two_eq_zero_or_one i with h | h <;> (simp [h]; try norm_num)

/-- Witness for C9: seven khatms, marker index 5 is the gold accent. -/
theorem buildBadgeMarkers_layout_witness :
    (buildBadgeMarkers 7).length = min 7 12 ∧
    ((buildBadgeMarkers 7).get ⟨5, by decide⟩).isSpecial = true :=
  ⟨(buildBadgeMarkers_layout 7).1,
   (((buildBadgeMarkers_layout 7).2 5 (by decide)).2.2.1).mpr (by norm_num)⟩

/-- With a non-empty tip list, one fruit-loop iteration always succeeds (the
tip index `floor(rand * length)` is in range because rand < 1), and the
placed decoration is golden exactly for status "complete". -/
lemma placeOneFruit_some (growth : ℚ) (tips : List Tip) (fruit : Fruit) (s : ℕ)
    (h : tips ≠ []) :
    ∃ d s2, placeOneFruit growth tips fruit s = some (d, s2) ∧
      d.golden = (fruit.status == "complete") := by
  have hlen : 0 < tips.length := List.length_pos.mpr h
  have hn0 : (mulberry32Next s).2 < 4294967296 := mulberry32Next_snd_lt s
  have hu0 : ((mulberry32Next s).2 : ℚ) / 4294967296 < 1 := by
    rw [div_lt_one (by norm_num)]
    exact_mod_cast hn0
  have hu0n : 0 ≤ ((mulberry32Next s).2 : ℚ) / 4294967296 :=
    div_nonneg (Nat.cast_nonneg _) (by norm_num)
  have hidx :
      (Int.floor (((mulberry32Next s).2 : ℚ) / 4294967296 * tips.length)).toNat <
        tips.length := by
    rw [Int.toNat_lt' (by omega : tips.length ≠ 0)]
    have : ((mulberry32Next s).2 : ℚ) / 4294967296 * tips.length <
        (tips.length : ℚ) := by
      calc ((mulberry32Next s).2 : ℚ) / 4294967296 * tips.length
          < 1 * tips.length := by
            apply mul_lt_mul_of_pos_right hu0
            exact_mod_cast hlen
        _ = (tips.length : ℚ) := one_mul _
    exact_mod_cast Int.floor_lt.mpr (by exact_mod_cast this)
  unfold placeOneFruit
  simp only [List.get?_eq_get hidx]
  by_cases hc : (fruit.status == "complete") = true
  · simp only [hc, if_true]
    exact ⟨_, _, rfl, by simp [hc]⟩
  · simp only [hc, if_false]
    refine ⟨_, _, rfl, ?_⟩
    simp only [Bool.not_eq_true] at hc
    simp [hc]

/-- The fruit loop places exactly one decoration per descriptor, golden
exactly on "complete" descriptors, for every starting PRNG state. -/
lemma placeFruitsGo_spec (growth : ℚ) (tips : List Tip) (h : tips ≠ []) :
    ∀ (fruits : List Fruit) (s : ℕ),
      ∃ decos, placeFruitsGo growth tips fruits s = some decos ∧
        decos.length = fruits.length ∧
        List.Forall₂ (fun (d : Deco) (f : Fruit) =>
          d.golden = (f.status == "complete")) decos fruits := by
  intro fruits
  induction fruits with
  | nil => exact fun s => ⟨[], rfl, rfl, List.Forall₂.nil⟩
  | cons fruit rest ih =>
    intro s
    obtain ⟨d, s2, hone, hgold⟩ := placeOneFruit_some growth tips fruit s h
    obtain ⟨decos, hgo, hlen, hall⟩ := ih s2
    refine ⟨d :: decos, ?_, by simp [hlen], List.Forall₂.cons hgold hall⟩
    simp [placeFruitsGo, hone, hgo]

/-- The fruit-descriptor list: one descriptor per present, non-decayed memo
entry, with status passed through and progress given by `goodCount`. -/
lemma memoFruits_spec (memo : List (ℕ × Option MemoEntry)) :
    (memoFruits memo).length = (memo.countP fun p =>
      match p.2 with
      | some e => e.status != "decayed"
      | none => false) ∧
    ∀ f ∈ memoFruits memo, ∃ e : MemoEntry,
      (f.surahId, some e) ∈ memo ∧ f.status = e.status ∧
      e.status ≠ "decayed" ∧ f.progress = goodCount e := by
  induction memo with
  | nil => simp [memoFruits]
  | cons p rest ih =>
    obtain ⟨id, oe⟩ := p
    obtain ⟨ihlen, ihmem⟩ := ih
    cases oe with
    | none =>
      refine ⟨?_, ?_⟩
      · simpa [memoFruits, List.filterMap_cons, List.countP_cons] using ihlen
      · intro f hf
        have hf2 : f ∈ memoFruits rest := by
          simpa [memoFruits, List.filterMap_cons] using hf
        obtain ⟨e, hmem, h1, h2, h3⟩ := ihmem f hf2
        exact ⟨e, List.mem_cons_of_mem _ hmem, h1, h2, h3⟩
    | some entry =>
      by_cases hd : entry.status = "decayed"
      · refine ⟨?_, ?_⟩
        · simpa [memoFruits, List.filterMap_cons, List.countP_cons, hd]
            using ihlen
        · intro f hf
          have hf2 : f ∈ memoFruits rest := by
            simpa [memoFruits, List.filterMap_cons, hd] using hf
          obtain ⟨e, hmem, h1, h2, h3⟩ := ihmem f hf2
          exact ⟨e, List.mem_cons_of_mem _ hmem, h1, h2, h3⟩
      · refine ⟨?_, ?_⟩
        · simpa [memoFruits, List.filterMap_cons, List.countP_cons, hd]
            using ihlen
        · intro f hf
          rcases (by
              simpa [memoFruits, List.filterMap_cons, hd] using hf :
              f = (⟨id, goodCount entry, entry.status⟩ : Fruit) ∨
                f ∈ memoFruits rest) with hhead | htail
          · subst hhead
            exact ⟨entry, List.mem_cons_self _ _, rfl, hd, rfl⟩
          · obtain ⟨e, hmem, h1, h2, h3⟩ := ihmem f htail
            exact ⟨e, List.mem_cons_of_mem _ hmem, h1, h2, h3⟩

/-- C5: the fruit list carries one descriptor per non-decayed memo entry
(status passed through, progress from the good-verse count / legacy list);
with at least one terminal tip, the placement loop places exactly one
decoration per descriptor (golden fruit iff status "complete") and never
fails; with no terminal tips it places nothing and does not fail. -/
theorem buildTree_fruit_placement :
    (∀ (growth : ℚ) (fruits : List Fruit) (tips : List Tip), tips ≠ [] →
        ∃ decos, placeFruits growth fruits tips = some decos ∧
          decos.length = fruits.length ∧
          List.Forall₂ (fun (d : Deco) (f : Fruit) =>
            d.golden = (f.status == "complete")) decos fruits) ∧
    (∀ (growth : ℚ) (fruits : List Fruit), placeFruits growth fruits [] = some []) ∧
    (∀ state : Snapshot, (computeGrowth state).fruits = memoFruits state.memo) ∧
    (∀ memo : List (ℕ × Option MemoEntry),
      (memoFruits memo).length = (memo.countP fun p =>
        match p.2 with
        | some e => e.status != "decayed"
        | none => false) ∧
      ∀ f ∈ memoFruits memo, ∃ e : MemoEntry,
        (f.surahId, some e) ∈ memo ∧ f.status = e.status ∧
        e.status ≠ "decayed" ∧ f.progress = goodCount e) := by
  refine ⟨?_, ?_, fun _ => rfl, memoFruits_spec⟩
  · intro growth fruits tips htips
    by_cases hf : fruits = []
    · subst hf
      exact ⟨[], by simp [placeFruits], rfl, List.Forall₂.nil⟩
    · have hfl : 0 < fruits.length := List.length_pos.mpr hf
      have htl : 0 < tips.length := List.length_pos.mpr htips
      obtain ⟨decos, hgo, hlen, hall⟩ :=
        placeFruitsGo_spec growth tips htips fruits (mulberry32Init 42)
      exact ⟨decos, by simp [placeFruits, hfl, htl, hgo], hlen, hall⟩
  · intro growth fruits
    simp [placeFruits]

/-- Witness for C5: two descriptors, two tips; and the empty-tip case. -/
theorem buildTree_fruit_placement_witness :
    (∃ decos,
      placeFruits (1/2) [⟨1, 3, "active"⟩, ⟨2, 5, "complete"⟩]
          [⟨0, 0, 0⟩, ⟨1, 1, 1⟩] = some decos ∧
      decos.length =
        ([⟨1, 3, "active"⟩, ⟨2, 5, "complete"⟩] : List Fruit).length ∧
      List.Forall₂ (fun (d : Deco) (f : Fruit) =>
          d.golden = (f.status == "complete"))
        decos [⟨1, 3, "active"⟩, ⟨2, 5, "complete"⟩]) ∧
    placeFruits (1/2) [⟨1, 3, "active"⟩] [] = some [] :=
  ⟨buildTree_fruit_placement.1 (1/2) _ _ (by simp),
   buildTree_fruit_placement.2.1 (1/2) _⟩

/-- The loop body advances the safety counter by exactly one. -/
lemma stepBranch_iterations (params : GrowthParams) (stream : ℕ → ℚ)
    (clampO : ℕ → Bool) (branch : Branch) (rest : List Branch) (st : LoopState) :
    (stepBranch params stream clampO branch rest st).iterations =
      st.iterations + 1 := by
  simp only [stepBranch]
  split_ifs <;> rfl

/-- With `fuel` iterations still allowed by the safety guard, the loop
executes at most `fuel` more iterations, whatever the queue contains. -/
lemma buildTreeLoop_iterations_le (params : GrowthParams) (stream : ℕ → ℚ)
    (clampO : ℕ → Bool) :
    ∀ (fuel : ℕ) (st : LoopState),
      (buildTreeLoop params stream clampO fuel st).iterations ≤
        st.iterations + fuel := by
  intro fuel
  induction fuel with
  | zero =>
    intro st
    obtain ⟨q, cur, m, t, it, cap⟩ := st
    cases q <;> simp [buildTreeLoop]
  | succ n ih =>
    intro st
    obtain ⟨q, cur, m, t, it, cap⟩ := st
    cases q with
    | nil => simp [buildTreeLoop]
    | cons branch rest =>
      calc (buildTreeLoop params stream clampO (n + 1)
              ⟨branch :: rest, cur, m, t, it, cap⟩).iterations
          = (buildTreeLoop params stream clampO n
              (stepBranch params stream clampO branch rest
                ⟨branch :: rest, cur, m, t, it, cap⟩)).iterations := rfl
        _ ≤ (stepBranch params stream clampO branch rest
              ⟨branch :: rest, cur, m, t, it, cap⟩).iterations + n := ih _
        _ = it + 1 + n := by rw [stepBranch_iterations]
        _ ≤ it + (n + 1) := by omega

/-- C6: for every snapshot or override parameter set — including pathological
ones such as childrenPerNode = 100 with levels = 10 — and every PRNG stream
and clamp oracle, the branch-generation loop of `buildTree` executes at most
2000 queue iterations; and when the safety counter is exhausted with work
still queued, the loop stops, marks the cap hit, and returns the state built
so far unchanged (the model is a total function: no exception). -/
theorem buildTree_iteration_cap :
    (∀ (state : Snapshot) (overrideGrowth : Option GrowthParams)
        (clampO : ℕ → Bool),
      (buildTreeModel state overrideGrowth clampO).iterations ≤ 2000) ∧
    (∀ (params : GrowthParams) (stream : ℕ → ℚ) (clampO : ℕ → Bool)
        (st : LoopState) (b : Branch) (rest : List Branch),
      buildTreeLoop params stream clampO 0 { st with queue := b :: rest } =
        { st with queue := b :: rest, capHit := true }) := by
  refine ⟨?_, fun _ _ _ _ _ _ => rfl⟩
  intro state og clampO
  unfold buildTreeModel
  set params := og.getD (computeGrowth state)
  by_cases hg : params.growth < 0.01
  · simp [hg]
  · simp only [hg, if_false]
    exact le_trans
      (le_of_eq rfl)
      (buildTreeLoop_iterations_le params _ clampO 2000
        { queue := [⟨params.trunkLength, params.trunkRadius, 0⟩], cursor := 2,
          meshes := 0, tips := 0, iterations := 0, capHit := false })

/-- The child-spawning loop never reads the `seed` field. -/
lemma spawnChildren_seed_irrel (p : GrowthParams) (z : ℤ) (stream : ℕ → ℚ)
    (clampO : ℕ → Bool) (parent : Branch) :
    ∀ (n idx : ℕ),
      spawnChildren { p with seed := z } stream clampO parent n idx =
        spawnChildren p stream clampO parent n idx := by
  intro n
  induction n with
  | zero => intro idx; rfl
  | succ m ih =>
    intro idx
    simp only [spawnChildren]
    rw [ih]

/-- The leaf-cluster PRNG consumption never reads the `seed` field. -/
lemma addLeavesRandCount_seed_irrel (p : GrowthParams) (z : ℤ)
    (stream : ℕ → ℚ) (idx : ℕ) :
    addLeavesRandCount { p with seed := z } stream idx =
      addLeavesRandCount p stream idx := rfl

/-- The loop body never reads the `seed` field. -/
lemma stepBranch_seed_irrel (p : GrowthParams) (z : ℤ) (stream : ℕ → ℚ)
    (clampO : ℕ → Bool) (branch : Branch) (rest : List Branch) (st : LoopState) :
    stepBranch { p with seed := z } stream clampO branch rest st =
      stepBranch p stream clampO branch rest st := by
  simp only [stepBranch, spawnChildren_seed_irrel, addLeavesRandCount_seed_irrel]

/-- The whole branch-generation loop never reads the `seed` field. -/
lemma buildTreeLoop_seed_irrel (p : GrowthParams) (z : ℤ) (stream : ℕ → ℚ)
    (clampO : ℕ → Bool) :
    ∀ (fuel : ℕ) (st : LoopState),
      buildTreeLoop { p with seed := z } stream clampO fuel st =
        buildTreeLoop p stream clampO fuel st := by
  intro fuel
  induction fuel with
  | zero =>
    intro st
    obtain ⟨q, cur, m, t, it, cap⟩ := st
    cases q <;> rfl
  | succ n ih =>
    intro st
    obtain ⟨q, cur, m, t, it, cap⟩ := st
    cases q with
    | nil => rfl
    | cons branch rest =>
      show buildTreeLoop { p with seed := z } stream clampO n _ = _
      rw [stepBranch_seed_irrel, ih]
      rfl

/-- C10: a parameter set whose `seed` is 0 builds exactly the same tree as
the same parameter set with `seed` 42, because `buildTree` seeds its PRNG
with `params.seed || 42` and 0 is falsy; the same holds on the
no-override path when the snapshot's computed seed
`floor(totalPages * 0.1 + khatms * 1000)` is 0.  (An absent `seed` field is
the same JS falsy fallback; the typed embedding always carries the field.) -/
theorem buildTree_zero_seed_is_42 :
    (∀ (state : Snapshot) (params : GrowthParams) (clampO : ℕ → Bool),
      params.seed = 0 →
      buildTreeModel state (some params) clampO =
        buildTreeModel state (some { params with seed := 42 }) clampO) ∧
    (∀ (state : Snapshot) (clampO : ℕ → Bool),
      (computeGrowth state).seed = 0 →
      buildTreeModel state none clampO =
        buildTreeModel state (some { computeGrowth state with seed := 42 })
          clampO) := by
  have main : ∀ (state : Snapshot) (params : GrowthParams) (clampO : ℕ → Bool),
      params.seed = 0 →
      buildTreeModel state (some params) clampO =
        buildTreeModel state (some { params with seed := 42 }) clampO := by
    intro state params clampO h
    unfold buildTreeModel
    simp only [Option.getD_some, h, buildTreeLoop_seed_irrel]
    norm_num
  refine ⟨main, fun state clampO h => ?_⟩
  have hnone : buildTreeModel state none clampO =
      buildTreeModel state (some (computeGrowth state)) clampO := rfl
  rw [hnone, main state _ clampO h]

/-- Witness for C10 at a concrete zero-seed override parameter set. -/
theorem buildTree_zero_seed_is_42_witness :
    buildTreeModel ⟨0, 0, 0, 0, []⟩
        (some ⟨0, 0.3, 0.02, 0, 1.5, 0.5, 0.55, 0.45, 0.6, 0.07, 0.15, 0, 0.06,
          0.3, false, 0, [], 0⟩) (fun _ => false) =
      buildTreeModel ⟨0, 0, 0, 0, []⟩
        (some ⟨0, 0.3, 0.02, 0, 1.5, 0.5, 0.55, 0.45, 0.6, 0.07, 0.15, 0, 0.06,
          0.3, false, 0, [], 42⟩) (fun _ => false) :=
  buildTree_zero_seed_is_42.1 _ _ _ rfl
